import Mathlib

/-!
Shallow embedding of the REViewer relay server (`rViewerServer.ts`, class
`REViewerServer`): the table-model normalizer (`convertToDataFrame`,
`mapRType`), the session registry (`isRSessionConnected`, register and
heartbeat handlers), and the request/response correlator
(`requestDataFramesList`, `requestDataFrame`, the `/pending` poll handler and
the `/respond/{id}` handler).

JSON values that can appear in a data column are modelled by `RawValue`
(string, number, boolean, null); JSON numbers are modelled as rationals.
JavaScript `Map` objects are modelled as insertion-ordered lists whose key
lookup is `find?` and whose `delete` is `eraseP` (keys are unique in the real
`Map`). Timestamps (`Date.now()`) are integers passed explicitly.
-/

/-- A raw JSON cell value as delivered by the R side. -/
inductive RawValue where
  | str (s : String)
  | num (q : Rat)
  | bool (b : Bool)
  | null
deriving DecidableEq, Repr

/-- A normalized cell value (`CellValue = string | number | boolean | null`
in `core/types.ts`). -/
inductive CellValue where
  | str (s : String)
  | num (q : Rat)
  | bool (b : Bool)
  | null
deriving DecidableEq, Repr

/-- The `RDataType` union from `core/types.ts`. -/
inductive RDataType where
  | numeric
  | integer
  | character
  | factor
  | logical
  | date
  | posixct
  | posixlt
  | complex
  | raw
  | list
  | unknown
deriving DecidableEq, Repr

/-- `IColumnDef` from `core/types.ts`. The server never sets `levels`. -/
structure IColumnDef where
  name : String
  type : RDataType
  label : Option String
  levels : Option (List String)
  index : Nat
  hasNA : Bool
deriving DecidableEq, Repr

/-- `IDataFrame` from `core/types.ts`. -/
structure IDataFrame where
  name : String
  columns : List IColumnDef
  rows : List (List CellValue)
  totalRows : Nat
  totalColumns : Nat
  hasMore : Bool
  fetchedAt : Int
deriving DecidableEq, Repr

/-- The `coltypes` payload field: either an array aligned with `colnames` or
an object mapping column names to type tags. -/
inductive Coltypes where
  | arr (ts : List String)
  | obj (m : List (String × String))
deriving DecidableEq, Repr

/-- The `RViewData` payload shape after validation: `name` and `data` are
known present. A JSON object is an association list looked up by key. -/
structure RViewData where
  name : String
  data : List (String × List RawValue)
  nrow : Nat
  ncol : Nat
  colnames : List String
  coltypes : Coltypes
  labels : List (String × String)
deriving DecidableEq, Repr

/-- JSON-object key lookup (`obj[key]`, `undefined` when absent). -/
def recordGet (m : List (String × α)) (k : String) : Option α :=
  (m.find? (fun p => p.1 == k)).map (fun p => p.2)

/-- Character-list prefix test, used by `strIncludes`. -/
def charsPrefixOf : List Char → List Char → Bool
  | [], _ => true
  | _ :: _, [] => false
  | a :: as, b :: bs => a == b && charsPrefixOf as bs

/-- Character-list substring containment, used by `strIncludes`. -/
def charsContains : List Char → List Char → Bool
  | [], needle => needle.isEmpty
  | a :: rest, needle => charsPrefixOf needle (a :: rest) || charsContains rest needle

/-- JavaScript `hay.includes(needle)` on strings. -/
def strIncludes (hay needle : String) : Bool :=
  charsContains hay.toList needle.toList

/-- `rType.toLowerCase().replace(/['"]/g, '')`: lowercase and strip single
and double quotes (character-wise, so that it evaluates by reduction). -/
def normalizeTypeTag (rType : String) : String :=
  ((rType.toList.map Char.toLower).filter (fun c => !(c == '\'' || c == '\"'))).asString

/-- The `typeMap` table of `mapRType`, in source (insertion) order. -/
def typeMapEntries : List (String × RDataType) :=
  [ ("numeric", RDataType.numeric)
  , ("double", RDataType.numeric)
  , ("integer", RDataType.integer)
  , ("character", RDataType.character)
  , ("factor", RDataType.factor)
  , ("logical", RDataType.logical)
  , ("date", RDataType.date)
  , ("posixct", RDataType.posixct)
  , ("posixt", RDataType.posixct)
  , ("posixlt", RDataType.posixlt)
  , ("complex", RDataType.complex)
  , ("raw", RDataType.raw)
  , ("list", RDataType.list)
  ]

/-- `REViewerServer.mapRType`: first table entry whose key occurs as a
substring of the normalized tag wins; otherwise `unknown`. -/
def mapRType (rType : String) : RDataType :=
  let normalizedType := normalizeTypeTag rType
  match typeMapEntries.find? (fun e => strIncludes normalizedType e.1) with
  | some e => e.2
  | none => RDataType.unknown

/-- JavaScript `s || 'unknown'` on an optional string: absent or empty
(falsy) falls back to the default. -/
def jsStrOr (v : Option String) (dflt : String) : String :=
  match v with
  | none => dflt
  | some s => if s == "" then dflt else s

/-- The per-column type-tag lookup of `convertToDataFrame`: array form is
indexed by position, object form by column name; falsy results become
`"unknown"`. -/
def coltypeAt (ct : Coltypes) (colName : String) (index : Nat) : String :=
  match ct with
  | Coltypes.arr ts => jsStrOr ts[index]? "unknown"
  | Coltypes.obj m => jsStrOr (recordGet m colName) "unknown"

/-- `v === null || v === 'NA'`, the NA test applied to raw column values. -/
def isNAValue : RawValue → Bool
  | RawValue.null => true
  | RawValue.str s => s == "NA"
  | _ => false

/-- One column definition, as built by the `colnames.forEach` loop of
`convertToDataFrame`. -/
def buildColumn (rData : RViewData) (colName : String) (index : Nat) : IColumnDef :=
  let rType := coltypeAt rData.coltypes colName index
  let label := recordGet rData.labels colName
  let colData := (recordGet rData.data colName).getD []
  let hasNA := colData.any isNAValue
  { name := colName
  , type := mapRType rType
  , label := label
  , levels := none
  , index := index
  , hasNA := hasNA }

/-- All column definitions, in `colnames` order. -/
def buildColumns (rData : RViewData) : List IColumnDef :=
  rData.colnames.enum.map (fun p => buildColumn rData p.2 p.1)

/-- Normalization of one raw cell: `null` and the string `"NA"` become
`null`, anything else passes through. -/
def normalizeCell : RawValue → CellValue
  | RawValue.null => CellValue.null
  | RawValue.str s => if s == "NA" then CellValue.null else CellValue.str s
  | RawValue.num q => CellValue.num q
  | RawValue.bool b => CellValue.bool b

/-- The cell produced for column `colName` at row index `i`: `null` when the
column is absent or shorter than `i + 1`, otherwise the normalized raw
value. -/
def cellAt (rData : RViewData) (colName : String) (i : Nat) : CellValue :=
  match recordGet rData.data colName with
  | none => CellValue.null
  | some colData =>
    match colData[i]? with
    | none => CellValue.null
    | some v => normalizeCell v

/-- One row of the row-oriented output: the `i`-th cell of every column, in
`colnames` order. -/
def buildRow (rData : RViewData) (i : Nat) : List CellValue :=
  rData.colnames.map (fun c => cellAt rData c i)

/-- `REViewerServer.convertToDataFrame`: column definitions plus one row per
`i < nrow`. `fetchedAt` is the caller-supplied current time. -/
def convertToDataFrame (rData : RViewData) (now : Int) : IDataFrame :=
  { name := rData.name
  , columns := buildColumns rData
  , rows := (List.range rData.nrow).map (fun i => buildRow rData i)
  , totalRows := rData.nrow
  , totalColumns := rData.ncol
  , hasMore := false
  , fetchedAt := now }

/-- The parsed `/review` body before validation: `name` and `data` may be
absent. -/
structure RViewPayload where
  name : Option String
  data : Option (List (String × List RawValue))
  nrow : Nat
  ncol : Nat
  colnames : List String
  coltypes : Coltypes
  labels : List (String × String)
deriving DecidableEq, Repr

/-- JavaScript falsiness of an optional string (`!rData.name`): absent or
empty. -/
def jsFalsyStr : Option String → Bool
  | none => true
  | some s => s == ""

/-- Strip the `Option` wrappers once validation has passed. -/
def payloadToRViewData (p : RViewPayload) : RViewData :=
  { name := p.name.getD ""
  , data := p.data.getD []
  , nrow := p.nrow
  , ncol := p.ncol
  , colnames := p.colnames
  , coltypes := p.coltypes
  , labels := p.labels }

/-- The validation-plus-conversion core of `handleReviewRequest`
(`req.on('end')`): error when `!rData.name || !rData.data`, otherwise the
converted data frame. -/
def reviewOutcome (p : RViewPayload) (now : Int) : Except String IDataFrame :=
  if jsFalsyStr p.name || p.data.isNone then
    Except.error "Invalid data format: missing name or data"
  else
    Except.ok (convertToDataFrame (payloadToRViewData p) now)

/-- Boolean success test on `Except`. -/
def exceptIsOk : Except String IDataFrame → Bool
  | Except.ok _ => true
  | Except.error _ => false

/-- The R session record (`RSessionInfo` in `rViewerServer.ts`). -/
structure RSessionInfo where
  registeredAt : Int
  lastHeartbeat : Int
  rVersion : Option String
  pid : Option Int
deriving DecidableEq, Repr

/-- `REViewerServer.isRSessionConnected`: false with no session, otherwise
true exactly when less than 60 seconds have passed since the last
heartbeat. -/
def isRSessionConnected (rSession : Option RSessionInfo) (now : Int) : Bool :=
  match rSession with
  | none => false
  | some s => now - s.lastHeartbeat < 60000

/-- The two pull-request kinds of the correlator. -/
inductive RequestType where
  | listDataFrames
  | getData
deriving DecidableEq, Repr

/-- A `PendingRequest` entry (without the resolve/reject closures, which are
modelled by the `FutureEvent` a handler step emits). -/
structure PendingRequest where
  id : String
  type : RequestType
  params : Option (List (String × String))
  createdAt : Int
deriving DecidableEq, Repr

/-- The mutable server state touched by the session registry and the
correlator: `rSession`, the `pendingRequests` map (insertion-ordered list)
and `requestCounter`. -/
structure ServerState where
  rSession : Option RSessionInfo
  pendingRequests : List PendingRequest
  requestCounter : Nat
deriving DecidableEq, Repr

/-- The request id built by `requestDataFramesList` / `requestDataFrame`. -/
def freshRequestId (counter : Nat) (now : Int) : String :=
  "req_" ++ toString counter ++ "_" ++ toString now

/-- The message thrown by both pull entry points when no R session is
attached. -/
def notConnectedMessage : String :=
  "R session not connected. Run reviewer_connect() in R."

/-- `REViewerServer.requestDataFramesList`: fail with `NotConnected` when
the session is not attached, otherwise append a fresh `listDataFrames`
pending entry and return its id. -/
def requestDataFramesList (st : ServerState) (now : Int) :
    ServerState × Except String String :=
  if !isRSessionConnected st.rSession now then
    (st, Except.error notConnectedMessage)
  else
    let counter := st.requestCounter + 1
    let id := freshRequestId counter now
    let pr : PendingRequest :=
      { id := id, type := RequestType.listDataFrames, params := none, createdAt := now }
    ({ st with requestCounter := counter
             , pendingRequests := st.pendingRequests ++ [pr] },
     Except.ok id)

/-- `REViewerServer.requestDataFrame`: fail with `NotConnected` when the
session is not attached, otherwise append a fresh `getData` pending entry
carrying the frame name and return its id. -/
def requestDataFrame (st : ServerState) (dfName : String) (now : Int) :
    ServerState × Except String String :=
  if !isRSessionConnected st.rSession now then
    (st, Except.error notConnectedMessage)
  else
    let counter := st.requestCounter + 1
    let id := freshRequestId counter now
    let pr : PendingRequest :=
      { id := id, type := RequestType.getData
      , params := some [("name", dfName)], createdAt := now }
    ({ st with requestCounter := counter
             , pendingRequests := st.pendingRequests ++ [pr] },
     Except.ok id)

/-- The parsed `/register` body (`{rVersion?, pid?}`). -/
structure RegisterInfo where
  rVersion : Option String
  pid : Option Int
deriving DecidableEq, Repr

/-- `REViewerServer.handleRegisterRequest` on a parsed body: replace the
session with a fresh one stamped `now`; the returned flag says whether the
connected callback fired (`!wasConnected`). `none` models a body that fails
`JSON.parse`: 400, no state change, no callback. -/
def handleRegisterRequest (st : ServerState) (body : Option RegisterInfo) (now : Int) :
    ServerState × Bool :=
  match body with
  | none => (st, false)
  | some info =>
    let wasConnected := isRSessionConnected st.rSession now
    let fresh : RSessionInfo :=
      { registeredAt := now, lastHeartbeat := now
      , rVersion := info.rVersion, pid := info.pid }
    ({ st with rSession := some fresh }, !wasConnected)

/-- `REViewerServer.handleHeartbeatRequest`: refresh `lastHeartbeat` when a
session exists (true), otherwise report `Not registered` (false). -/
def handleHeartbeatRequest (st : ServerState) (now : Int) : ServerState × Bool :=
  match st.rSession with
  | some s => ({ st with rSession := some { s with lastHeartbeat := now } }, true)
  | none => (st, false)

/-- The heartbeat refresh performed at the top of the `/pending` handler. -/
def touchHeartbeat (st : ServerState) (now : Int) : ServerState :=
  match st.rSession with
  | some s => { st with rSession := some { s with lastHeartbeat := now } }
  | none => st

/-- One step of the oldest-request scan: keep the accumulator unless the
next entry was created strictly earlier. -/
def olderOf (oldest : Option PendingRequest) (r : PendingRequest) : Option PendingRequest :=
  match oldest with
  | none => some r
  | some b => if r.createdAt < b.createdAt then some r else some b

/-- The oldest-pending scan of `handlePendingRequest`: iterate the map in
insertion order keeping the entry with the smallest `createdAt`. -/
def takeOldestPending (prs : List PendingRequest) : Option PendingRequest :=
  prs.foldl olderOf none

/-- The JSON body answered by `/pending`. -/
inductive PollResponse where
  | req (id : String) (type : RequestType) (params : Option (List (String × String)))
  | noReq
deriving DecidableEq, Repr

/-- `REViewerServer.handlePendingRequest`: refresh the heartbeat, then
answer with the oldest pending request (without removing it) or with
`{id: null}`. -/
def handlePendingRequest (st : ServerState) (now : Int) : ServerState × PollResponse :=
  let st' := touchHeartbeat st now
  match takeOldestPending st'.pendingRequests with
  | some r => (st', PollResponse.req r.id r.type r.params)
  | none => (st', PollResponse.noReq)

/-- The parsed `/respond/{id}` body: an optional `error` string and an
optional `data` payload (`none` models a `data` field that is absent or not
an `RViewData`-shaped object, on which `convertToDataFrame` throws). -/
structure RespondBody where
  error : Option String
  data : Option RViewData
deriving DecidableEq, Repr

/-- The settling of a pending future performed by a handler step. -/
inductive FutureEvent where
  | fulfilledList (id : String)
  | fulfilledFrame (id : String) (df : IDataFrame)
  | rejected (id : String) (msg : String)
deriving DecidableEq, Repr

/-- The id of the future settled by an event. -/
def FutureEvent.settledId : FutureEvent → String
  | FutureEvent.fulfilledList id => id
  | FutureEvent.fulfilledFrame id _ => id
  | FutureEvent.rejected id _ => id

/-- The observable outcome of `/respond/{id}`: 404, or 200 with a settled
future, or 400 (catch path) with a rejected future. -/
inductive RespondResult where
  | notFound
  | ok (ev : FutureEvent)
  | badRequest (ev : FutureEvent)
deriving DecidableEq, Repr

/-- Stand-in for the runtime message of the `JSON.parse` exception caught in
`handleRespondRequest`. -/
def jsonParseErrorMessage : String := "Unexpected token in JSON"

/-- Stand-in for the runtime message of the exception `convertToDataFrame`
throws on a mis-shaped `data` field. -/
def conversionErrorMessage : String := "Cannot convert response data"

/-- `REViewerServer.handleRespondRequest`. Mirrors the source order: the 404
lookup happens before the body is read; `JSON.parse` failure then rejects
the pending future in the catch block WITHOUT removing the map entry; a
parsed body first deletes the entry, then rejects (truthy `error`) or
resolves by kind, the `getData` conversion failure landing in the catch
block after the deletion. -/
def handleRespondRequest (st : ServerState) (requestId : String)
    (body : Option RespondBody) (now : Int) : ServerState × RespondResult :=
  match st.pendingRequests.find? (fun r => r.id == requestId) with
  | none => (st, RespondResult.notFound)
  | some pending =>
    match body with
    | none =>
      (st, RespondResult.badRequest
        (FutureEvent.rejected pending.id jsonParseErrorMessage))
    | some response =>
      let st' := { st with
        pendingRequests := st.pendingRequests.eraseP (fun r => r.id == requestId) }
      if !jsFalsyStr response.error then
        (st', RespondResult.ok
          (FutureEvent.rejected pending.id (response.error.getD "")))
      else
        match pending.type with
        | RequestType.listDataFrames =>
          (st', RespondResult.ok (FutureEvent.fulfilledList pending.id))
        | RequestType.getData =>
          match response.data with
          | some rvd =>
            (st', RespondResult.ok
              (FutureEvent.fulfilledFrame pending.id (convertToDataFrame rvd now)))
          | none =>
            (st', RespondResult.badRequest
              (FutureEvent.rejected pending.id conversionErrorMessage))

/-! Concrete inputs used as witnesses and counterexamples. -/

/-- The mtcars-style example payload (integer-valued cells). -/
def mtcarsPayload : RViewData :=
  { name := "mtcars"
  , data := [("mpg", [RawValue.num 21, RawValue.num 22]), ("cyl", [RawValue.num 6, RawValue.num 4])]
  , nrow := 2, ncol := 2
  , colnames := ["mpg", "cyl"]
  , coltypes := Coltypes.arr ["numeric", "numeric"]
  , labels := [] }

/-- A payload whose single column holds `"NA"`, `null` and a number. -/
def naPayload : RViewData :=
  { name := "y"
  , data := [("a", [RawValue.str "NA", RawValue.null, RawValue.num 5])]
  , nrow := 3, ncol := 1
  , colnames := ["a"]
  , coltypes := Coltypes.arr ["numeric"]
  , labels := [] }

/-- A payload whose column array (length 1) is shorter than `nrow = 2` and
holds no missing value. -/
def shortColumnPayload : RViewData :=
  { name := "x"
  , data := [("a", [RawValue.num 1])]
  , nrow := 2, ncol := 1
  , colnames := ["a"]
  , coltypes := Coltypes.arr ["numeric"]
  , labels := [] }

/-- A push body with `name` and `data` present but `colnames.length = 1`
while `ncol = 2`. -/
def mismatchPayload : RViewPayload :=
  { name := some "x"
  , data := some [("a", [RawValue.num 1])]
  , nrow := 1, ncol := 2
  , colnames := ["a"]
  , coltypes := Coltypes.arr ["numeric"]
  , labels := [] }

/-- Server state with no session and no pending requests. -/
def emptyState : ServerState :=
  { rSession := none, pendingRequests := [], requestCounter := 0 }

/-- Server state with a single pending `listDataFrames` request. -/
def respondState : ServerState :=
  { rSession := none
  , pendingRequests :=
      [{ id := "req_1_0", type := RequestType.listDataFrames, params := none, createdAt := 0 }]
  , requestCounter := 1 }

/-- Pending request A, created at 100. -/
def pendingA : PendingRequest :=
  { id := "req_A", type := RequestType.listDataFrames, params := none, createdAt := 100 }

/-- Pending request B, created at 200. -/
def pendingB : PendingRequest :=
  { id := "req_B", type := RequestType.getData
  , params := some [("name", "df")], createdAt := 200 }

/-- Server state with requests A (older) and B pending. -/
def twoPendingState : ServerState :=
  { rSession := none, pendingRequests := [pendingA, pendingB], requestCounter := 2 }

/-! Shape of the normalized snapshot (claim C1). -/

/-- The `i`-th produced row, when `i < nrow`. -/
theorem convert_rows_getElem? (rData : RViewData) (now : Int) (i : Nat) :
    (convertToDataFrame rData now).rows[i]? =
      if i < rData.nrow then some (buildRow rData i) else none := by
  have hrows : (convertToDataFrame rData now).rows =
      (List.range rData.nrow).map (fun k => buildRow rData k) := rfl
  rw [hrows, List.getElem?_map]
  by_cases hi : i < rData.nrow
  · rw [if_pos hi, List.getElem?_range hi]
    rfl
  · rw [if_neg hi, List.getElem?_eq_none (by simpa [List.length_range] using hi)]
    rfl

/-- The `j`-th produced column definition. -/
theorem convert_columns_getElem? (rData : RViewData) (now : Int) (j : Nat) :
    (convertToDataFrame rData now).columns[j]? =
      (rData.colnames[j]?).map (fun c => buildColumn rData c j) := by
  simp only [convertToDataFrame, buildColumns, List.getElem?_map, List.getElem?_enum]
  cases rData.colnames[j]? <;> rfl

/-- C1: for a valid payload (per the input contract, `colnames.length =
ncol`), the snapshot has at most `nrow` rows, every row has exactly `ncol`
cells, and the `j`-th cell of each row is the one computed for the `j`-th
column of the columns sequence. -/
theorem convertToDataFrame_shape (rData : RViewData) (now : Int)
    (hcols : rData.colnames.length = rData.ncol) :
    (convertToDataFrame rData now).rows.length ≤ rData.nrow ∧
    (∀ row ∈ (convertToDataFrame rData now).rows, row.length = rData.ncol) ∧
    (∀ (i j : Nat) (row : List CellValue) (col : IColumnDef),
      (convertToDataFrame rData now).rows[i]? = some row →
      (convertToDataFrame rData now).columns[j]? = some col →
        row[j]? = some (cellAt rData col.name i)) := by
  refine ⟨?_, ?_, ?_⟩
  · simp [convertToDataFrame]
  · intro row hrow
    simp only [convertToDataFrame, List.mem_map] at hrow
    obtain ⟨i, _, rfl⟩ := hrow
    simpa [buildRow] using hcols
  · intro i j row col hrow hcol
    rw [convert_rows_getElem?] at hrow
    rw [convert_columns_getElem?] at hcol
    by_cases hi : i < rData.nrow
    · rw [if_pos hi] at hrow
      cases hrow
      cases hc : rData.colnames[j]? with
      | none => rw [hc] at hcol; cases hcol
      | some c =>
        rw [hc] at hcol
        cases hcol
        simp [buildRow, buildColumn, List.getElem?_map, hc]
    · rw [if_neg hi] at hrow; cases hrow

/-- Witness for C1 at the mtcars payload. -/
theorem convertToDataFrame_shape_witness :
    (convertToDataFrame mtcarsPayload 0).rows.length ≤ mtcarsPayload.nrow ∧
    [CellValue.num 21, CellValue.num 6].length = mtcarsPayload.ncol :=
  ⟨(convertToDataFrame_shape mtcarsPayload 0 (by decide)).1,
   (convertToDataFrame_shape mtcarsPayload 0 (by decide)).2.1 _ (by decide)⟩

/-! NA normalization (claim C3). -/

/-- No cell the normalizer produces is the string `"NA"`. -/
theorem cellAt_ne_NAString (rData : RViewData) (c : String) (i : Nat) :
    cellAt rData c i ≠ CellValue.str "NA" := by
  unfold cellAt
  split
  · simp
  · split
    · simp
    · rename_i v heq
      cases v with
      | null => simp [normalizeCell]
      | num q => simp [normalizeCell]
      | bool b => simp [normalizeCell]
      | str s =>
        simp only [normalizeCell]
        split
        · simp
        · rename_i hns
          intro h
          cases h
          exact hns rfl

/-- C3: a raw `null` and the raw string `"NA"` both normalize to the null
cell; a stored raw value that passes the NA test yields a null cell at its
position; and no cell of any produced snapshot is the string `"NA"`. -/
theorem normalize_na_cells (rData : RViewData) (now : Int) :
    normalizeCell RawValue.null = CellValue.null ∧
    normalizeCell (RawValue.str "NA") = CellValue.null ∧
    (∀ (colName : String) (i : Nat) (colData : List RawValue) (v : RawValue),
      recordGet rData.data colName = some colData →
      colData[i]? = some v → isNAValue v = true →
      cellAt rData colName i = CellValue.null) ∧
    (∀ row ∈ (convertToDataFrame rData now).rows, ∀ cell ∈ row,
      cell ≠ CellValue.str "NA") := by
  refine ⟨rfl, by simp [normalizeCell], ?_, ?_⟩
  · intro colName i colData v hcol hv hna
    unfold cellAt
    rw [hcol]
    dsimp only
    rw [hv]
    cases v with
    | null => rfl
    | str s =>
      simp only [isNAValue] at hna
      simp [normalizeCell, hna]
    | num q => simp [isNAValue] at hna
    | bool b => simp [isNAValue] at hna
  · intro row hrow cell hcell
    simp only [convertToDataFrame, List.mem_map] at hrow
    obtain ⟨i, _, rfl⟩ := hrow
    simp only [buildRow, List.mem_map] at hcell
    obtain ⟨c, _, rfl⟩ := hcell
    exact cellAt_ne_NAString rData c i

/-- Witness for C3 at a payload holding `"NA"`, `null` and the number 5. -/
theorem normalize_na_cells_witness :
    cellAt naPayload "a" 0 = CellValue.null ∧
    cellAt naPayload "a" 1 = CellValue.null ∧
    CellValue.num 5 ≠ CellValue.str "NA" :=
  ⟨(normalize_na_cells naPayload 0).2.2.1 "a" 0
      [RawValue.str "NA", RawValue.null, RawValue.num 5] (RawValue.str "NA")
      (by decide) (by decide) (by decide),
   (normalize_na_cells naPayload 0).2.2.1 "a" 1
      [RawValue.str "NA", RawValue.null, RawValue.num 5] RawValue.null
      (by decide) (by decide) (by decide),
   (normalize_na_cells naPayload 0).2.2.2 [CellValue.num 5] (by decide)
      (CellValue.num 5) (by decide)⟩

/-! Session liveness (claim C4). -/

/-- C4: `isRSessionConnected` is a pure function of the current time and the
stored `lastHeartbeat`; no session means false, an elapsed gap over 60
seconds means false (in particular at `now - 61s`), and a heartbeat 59
seconds old means true. -/
theorem isConnected_liveness (s : RSessionInfo) (now : Int) :
    isRSessionConnected none now = false ∧
    (60000 < now - s.lastHeartbeat → isRSessionConnected (some s) now = false) ∧
    (s.lastHeartbeat = now - 61000 → isRSessionConnected (some s) now = false) ∧
    (s.lastHeartbeat = now - 59000 → isRSessionConnected (some s) now = true) := by
  refine ⟨rfl, ?_, ?_, ?_⟩
  · intro h
    simp only [isRSessionConnected, decide_eq_false_iff_not, not_lt]
    omega
  · intro h
    simp only [isRSessionConnected, h, decide_eq_false_iff_not, not_lt]
    omega
  · intro h
    simp only [isRSessionConnected, h, decide_eq_true_eq]
    omega

/-- Witness for C4 at `now = 1000000`. -/
theorem isConnected_liveness_witness :
    isRSessionConnected
      (some { registeredAt := 0, lastHeartbeat := 1000000 - 61000
            , rVersion := none, pid := none }) 1000000 = false ∧
    isRSessionConnected
      (some { registeredAt := 0, lastHeartbeat := 1000000 - 59000
            , rVersion := none, pid := none }) 1000000 = true :=
  ⟨(isConnected_liveness
      { registeredAt := 0, lastHeartbeat := 1000000 - 61000
      , rVersion := none, pid := none } 1000000).2.2.1 (by decide),
   (isConnected_liveness
      { registeredAt := 0, lastHeartbeat := 1000000 - 59000
      , rVersion := none, pid := none } 1000000).2.2.2 (by decide)⟩

/-! Pull requests refused while detached (claim C6). -/

/-- C6: while `isRSessionConnected` is false, both pull entry points fail
with the `NotConnected` message and return the state unchanged: no pending
entry is created (the timeout timer is only started together with the
entry, so none is started either). -/
theorem issue_not_connected (st : ServerState) (dfName : String) (now : Int)
    (h : isRSessionConnected st.rSession now = false) :
    requestDataFramesList st now = (st, Except.error notConnectedMessage) ∧
    requestDataFrame st dfName now = (st, Except.error notConnectedMessage) := by
  constructor <;> simp [requestDataFramesList, requestDataFrame, h]

/-- Witness for C6 at the empty server state. -/
theorem issue_not_connected_witness :
    requestDataFramesList emptyState 0 = (emptyState, Except.error notConnectedMessage) ∧
    requestDataFrame emptyState "df" 0 = (emptyState, Except.error notConnectedMessage) :=
  issue_not_connected emptyState "df" 0 (by decide)

/-! Respond for an unknown id (claim C7). -/

/-- C7: a `/respond/{id}` call whose id is not in the pending map answers
404 with the state unchanged and settles no future, whatever the body; in
particular a late respond after a timeout removed the entry cannot
double-settle it. -/
theorem respond_unknown_id (st : ServerState) (requestId : String)
    (body : Option RespondBody) (now : Int)
    (h : st.pendingRequests.find? (fun r => r.id == requestId) = none) :
    handleRespondRequest st requestId body now = (st, RespondResult.notFound) := by
  unfold handleRespondRequest
  rw [h]

/-- Witness for C7 at the empty server state. -/
theorem respond_unknown_id_witness :
    handleRespondRequest emptyState "req_99" none 0 = (emptyState, RespondResult.notFound) :=
  respond_unknown_id emptyState "req_99" none 0 (by decide)

/-! Oldest-pending selection (claim C8). -/

/-- The oldest-scan step never drops to `none`. -/
theorem olderOf_ne_none (acc : Option PendingRequest) (r : PendingRequest) :
    olderOf acc r ≠ none := by
  cases acc with
  | none => simp [olderOf]
  | some b =>
    simp only [olderOf]
    split <;> simp

/-- The oldest scan yields `none` only from an empty list and a `none`
accumulator. -/
theorem foldl_olderOf_none (prs : List PendingRequest) :
    ∀ acc : Option PendingRequest,
      prs.foldl olderOf acc = none → prs = [] ∧ acc = none := by
  induction prs with
  | nil => intro acc h; exact ⟨rfl, h⟩
  | cons p l ih =>
    intro acc h
    rw [List.foldl_cons] at h
    exact absurd (ih (olderOf acc p) h).2 (olderOf_ne_none acc p)

/-- The oldest scan returns an element of the accumulator-or-list whose
`createdAt` is a lower bound for both. -/
theorem foldl_olderOf_min (prs : List PendingRequest) :
    ∀ (acc : Option PendingRequest) (r : PendingRequest),
      prs.foldl olderOf acc = some r →
      (acc = some r ∨ r ∈ prs) ∧
      (∀ b, acc = some b → r.createdAt ≤ b.createdAt) ∧
      (∀ q ∈ prs, r.createdAt ≤ q.createdAt) := by
  induction prs with
  | nil =>
    intro acc r h
    refine ⟨Or.inl h, ?_, by simp⟩
    intro b hb
    rw [hb] at h
    cases h
    exact le_refl _
  | cons p l ih =>
    intro acc r h
    rw [List.foldl_cons] at h
    obtain ⟨hmem, hacc, hall⟩ := ih (olderOf acc p) r h
    have hstep : ∀ b, acc = some b →
        (olderOf acc p = some p ∧ p.createdAt < b.createdAt) ∨
        (olderOf acc p = some b ∧ b.createdAt ≤ p.createdAt) := by
      intro b hb
      rw [hb]
      simp only [olderOf]
      by_cases hlt : p.createdAt < b.createdAt
      · exact Or.inl ⟨by rw [if_pos hlt], hlt⟩
      · exact Or.inr ⟨by rw [if_neg hlt], le_of_not_lt hlt⟩
    have hrp : r.createdAt ≤ p.createdAt := by
      cases hb : acc with
      | none =>
        have : olderOf acc p = some p := by rw [hb]; rfl
        exact hacc p this
      | some b =>
        rcases hstep b hb with ⟨heq, hlt⟩ | ⟨heq, hle⟩
        · exact hacc p heq
        · exact le_trans (hacc b heq) hle
    refine ⟨?_, ?_, ?_⟩
    · cases hb : acc with
      | none =>
        have : olderOf acc p = some p := by rw [hb]; rfl
        rcases hmem with hm | hm
        · rw [this] at hm
          cases hm
          exact Or.inr (List.mem_cons_self _ _)
        · exact Or.inr (List.mem_cons_of_mem _ hm)
      | some b =>
        rcases hmem with hm | hm
        · rcases hstep b hb with ⟨heq, _⟩ | ⟨heq, _⟩
          · rw [heq] at hm
            cases hm
            exact Or.inr (List.mem_cons_self _ _)
          · rw [heq] at hm
            cases hm
            exact Or.inl rfl
        · exact Or.inr (List.mem_cons_of_mem _ hm)
    · intro b hb
      rcases hstep b hb with ⟨heq, hlt⟩ | ⟨heq, hle⟩
      · exact le_trans (hacc p heq) (le_of_lt hlt)
      · exact hacc b heq
    · intro q hq
      rcases List.mem_cons.mp hq with hq | hq
      · rw [hq]; exact hrp
      · exact hall q hq

/-- `touchHeartbeat` leaves the pending map unchanged. -/
theorem touchHeartbeat_pendingRequests (st : ServerState) (now : Int) :
    (touchHeartbeat st now).pendingRequests = st.pendingRequests := by
  unfold touchHeartbeat
  split <;> rfl

/-- C8: the `/pending` poll keeps the pending map intact; the scan is empty
exactly on an empty map; any selected request is a pending entry with the
smallest `createdAt`; and the poll answers with exactly that entry, so
repeated polls keep answering the oldest entry until it is removed. -/
theorem poll_returns_oldest (st : ServerState) (now : Int) :
    ((handlePendingRequest st now).1.pendingRequests = st.pendingRequests) ∧
    (takeOldestPending st.pendingRequests = none ↔ st.pendingRequests = []) ∧
    (∀ r, takeOldestPending st.pendingRequests = some r →
      r ∈ st.pendingRequests ∧ ∀ q ∈ st.pendingRequests, r.createdAt ≤ q.createdAt) ∧
    (∀ r, takeOldestPending st.pendingRequests = some r →
      (handlePendingRequest st now).2 = PollResponse.req r.id r.type r.params) := by
  refine ⟨?_, ⟨?_, ?_⟩, ?_, ?_⟩
  · unfold handlePendingRequest
    dsimp only
    split <;> exact touchHeartbeat_pendingRequests st now
  · intro h
    exact (foldl_olderOf_none st.pendingRequests none h).1
  · intro h
    rw [h]
    rfl
  · intro r h
    obtain ⟨hmem, _, hall⟩ := foldl_olderOf_min st.pendingRequests none r h
    rcases hmem with hm | hm
    · cases hm
    · exact ⟨hm, hall⟩
  · intro r h
    unfold handlePendingRequest
    dsimp only
    rw [touchHeartbeat_pendingRequests, h]

/-- Witness for C8: with A (older) and B pending, the poll answers A; after
A is removed by a respond call, the poll answers B. -/
theorem poll_returns_oldest_witness :
    (handlePendingRequest twoPendingState 0).2 =
      PollResponse.req "req_A" RequestType.listDataFrames none ∧
    (handlePendingRequest
      (handleRespondRequest twoPendingState "req_A"
        (some { error := none, data := none }) 0).1 0).2 =
      PollResponse.req "req_B" RequestType.getData (some [("name", "df")]) :=
  ⟨(poll_returns_oldest twoPendingState 0).2.2.2 pendingA (by decide),
   (poll_returns_oldest
      (handleRespondRequest twoPendingState "req_A"
        (some { error := none, data := none }) 0).1 0).2.2.2 pendingB (by decide)⟩

/-! Registration (claim C9). -/

/-- C9: a parsed `/register` body unconditionally replaces the session with
a fresh attached one (`registeredAt = lastHeartbeat = now`); starting
detached, the first call observes the false-to-true transition (fires the
connected callback) and a second call within the liveness window does not,
while `isRSessionConnected` is true after each call. -/
theorem register_replaces_and_fires_once (st : ServerState)
    (info1 info2 : RegisterInfo) (t1 t2 : Int)
    (hdetached : isRSessionConnected st.rSession t1 = false)
    (hclose : t2 - t1 < 60000) :
    (handleRegisterRequest st (some info1) t1).1.rSession =
      some ⟨t1, t1, info1.rVersion, info1.pid⟩ ∧
    isRSessionConnected (handleRegisterRequest st (some info1) t1).1.rSession t1 = true ∧
    (handleRegisterRequest st (some info1) t1).2 = true ∧
    (handleRegisterRequest (handleRegisterRequest st (some info1) t1).1
        (some info2) t2).1.rSession =
      some ⟨t2, t2, info2.rVersion, info2.pid⟩ ∧
    isRSessionConnected (handleRegisterRequest (handleRegisterRequest st (some info1) t1).1
        (some info2) t2).1.rSession t2 = true ∧
    (handleRegisterRequest (handleRegisterRequest st (some info1) t1).1
        (some info2) t2).2 = false := by
  refine ⟨rfl, ?_, ?_, rfl, ?_, ?_⟩
  · simp only [handleRegisterRequest, isRSessionConnected, decide_eq_true_eq]
    omega
  · simp only [handleRegisterRequest, hdetached, Bool.not_false]
  · simp only [handleRegisterRequest, isRSessionConnected, decide_eq_true_eq]
    omega
  · simp only [handleRegisterRequest, isRSessionConnected]
    rw [show (decide (t2 - t1 < 60000)) = true from by simpa using hclose]
    rfl

/-- Witness for C9: register twice from the empty state at 0 and 1000. -/
theorem register_replaces_and_fires_once_witness :
    (handleRegisterRequest emptyState (some ⟨none, none⟩) 0).2 = true ∧
    (handleRegisterRequest (handleRegisterRequest emptyState (some ⟨none, none⟩) 0).1
        (some ⟨none, none⟩) 1000).2 = false :=
  ⟨(register_replaces_and_fires_once emptyState ⟨none, none⟩ ⟨none, none⟩ 0 1000
      (by decide) (by decide)).2.2.1,
   (register_replaces_and_fires_once emptyState ⟨none, none⟩ ⟨none, none⟩ 0 1000
      (by decide) (by decide)).2.2.2.2.2⟩

/-! Padding rows versus the hasNA flag (claim C10). -/

/-- C10: for the concrete valid payload whose only column has one value for
`nrow = 2` and holds no `null` and no `"NA"`, the snapshot pads the second
row with a null cell while the column's `hasNA` flag stays false: the flag
is computed only from the values present in the column array. -/
theorem padding_not_counted_in_hasNA :
    shortColumnPayload.data.all (fun p => p.2.all (fun v => !isNAValue v)) = true ∧
    shortColumnPayload.data.all
      (fun p => p.2.length < shortColumnPayload.nrow) = true ∧
    (convertToDataFrame shortColumnPayload 0).rows =
      [[CellValue.num 1], [CellValue.null]] ∧
    (convertToDataFrame shortColumnPayload 0).columns.map (fun c => c.hasNA) =
      [false] := by
  refine ⟨by decide, by decide, by decide, by decide⟩

/-! Push validation (claim C2). -/

/-- Counterexample to C2: a push body whose `colnames.length` (1) differs
from `ncol` (2) is NOT rejected; `handleReviewRequest` checks only that
`name` and `data` are present, so normalization succeeds. -/
theorem review_no_ncol_check :
    mismatchPayload.colnames.length ≠ mismatchPayload.ncol ∧
    exceptIsOk (reviewOutcome mismatchPayload 0) = true := by
  refine ⟨by decide, by decide⟩

/-- The JavaScript validation test of `handleReviewRequest`, spelled out. -/
theorem review_falsy_characterization (p : RViewPayload) :
    (jsFalsyStr p.name || p.data.isNone) = true ↔
      (p.name = none ∨ p.name = some "" ∨ p.data = none) := by
  cases hn : p.name with
  | none => simp [jsFalsyStr]
  | some s =>
    cases hd : p.data with
    | none => simp [jsFalsyStr]
    | some d =>
      simp only [jsFalsyStr, Option.isNone_some, Bool.or_false]
      constructor
      · intro h
        exact Or.inr (Or.inl (by simpa using h))
      · intro h
        rcases h with h | h | h
        · cases h
        · cases h
          simp
        · cases h

/-- C2 as amended: the push handler fails (produces a client-error response
and no snapshot) exactly when `name` is absent or empty or `data` is
absent; `colnames.length != ncol` is not checked, and such payloads
normalize successfully. -/
theorem review_validation_characterization (p : RViewPayload) (now : Int) :
    (∃ msg, reviewOutcome p now = Except.error msg) ↔
      (p.name = none ∨ p.name = some "" ∨ p.data = none) := by
  rw [← review_falsy_characterization p]
  unfold reviewOutcome
  constructor
  · intro ⟨msg, hmsg⟩
    by_contra hc
    rw [if_neg (by simpa using hc)] at hmsg
    cases hmsg
  · intro h
    rw [if_pos (by simpa using h)]
    exact ⟨_, rfl⟩

/-! Respond settle-and-remove (claim C5). -/

/-- Counterexample to C5: with one pending entry and a body that fails
`JSON.parse`, the respond handler rejects the pending future (400) yet the
entry stays in the pending map. -/
theorem respond_reject_leaves_entry :
    (handleRespondRequest respondState "req_1_0" none 0).2 =
      RespondResult.badRequest (FutureEvent.rejected "req_1_0" jsonParseErrorMessage) ∧
    (handleRespondRequest respondState "req_1_0" none 0).1.pendingRequests.any
      (fun r => r.id == "req_1_0") = true := by
  refine ⟨by decide, by decide⟩

/-- After erasing the first entry with a key, no entry with that key
remains, provided the keys were pairwise distinct. -/
theorem eraseP_id_not_mem (l : List PendingRequest) (key : String)
    (hnodup : (l.map (fun r => r.id)).Nodup) :
    ∀ r ∈ l.eraseP (fun r => r.id == key), r.id ≠ key := by
  induction l with
  | nil => simp
  | cons a l ih =>
    simp only [List.map_cons, List.nodup_cons] at hnodup
    obtain ⟨ha, hl⟩ := hnodup
    by_cases hak : (a.id == key) = true
    · rw [show List.eraseP (fun r => r.id == key) (a :: l) = l from
        List.eraseP_cons_of_pos hak]
      intro r hr hrk
      have hak' : a.id = key := by simpa using hak
      exact ha (List.mem_map.mpr ⟨r, hr, by rw [hrk, hak']⟩)
    · rw [show List.eraseP (fun r => r.id == key) (a :: l) =
          a :: List.eraseP (fun r => r.id == key) l from
        List.eraseP_cons_of_neg (by simpa using hak)]
      intro r hr
      rcases List.mem_cons.mp hr with h | h
      · rw [h]
        simpa using hak
      · exact ih hl r h

/-- The state every parsed-body branch of `handleRespondRequest` produces:
the entry deleted from the pending map. -/
theorem respond_parsed_state (st : ServerState) (requestId : String)
    (b : RespondBody) (now : Int) (pr : PendingRequest)
    (hfind : st.pendingRequests.find? (fun r => r.id == requestId) = some pr) :
    (handleRespondRequest st requestId (some b) now).1 =
      { st with pendingRequests :=
          st.pendingRequests.eraseP (fun r => r.id == requestId) } := by
  unfold handleRespondRequest
  rw [hfind]
  dsimp only
  split
  · rfl
  · split
    · rfl
    · split <;> rfl

/-- Every parsed-body branch of `handleRespondRequest` settles the found
entry's future. -/
theorem respond_parsed_event (st : ServerState) (requestId : String)
    (b : RespondBody) (now : Int) (pr : PendingRequest)
    (hfind : st.pendingRequests.find? (fun r => r.id == requestId) = some pr) :
    ∃ ev, ((handleRespondRequest st requestId (some b) now).2 = RespondResult.ok ev ∨
           (handleRespondRequest st requestId (some b) now).2 = RespondResult.badRequest ev) ∧
      ev.settledId = pr.id := by
  unfold handleRespondRequest
  rw [hfind]
  dsimp only
  split
  · exact ⟨_, Or.inl rfl, rfl⟩
  · split
    · exact ⟨_, Or.inl rfl, rfl⟩
    · split
      · exact ⟨_, Or.inl rfl, rfl⟩
      · exact ⟨_, Or.inr rfl, rfl⟩

/-- C5 as amended: when the respond body parses as JSON, fulfilling or
rejecting the pending future and removing its map entry happen in the same
handler step, so no entry with the settled id remains (pending ids being
unique, as the source `Map` guarantees); when the body fails to parse, the
future is rejected but the entry stays until the timeout removes it. -/
theorem respond_parsed_removes_entry (st : ServerState) (requestId : String)
    (b : RespondBody) (now : Int) (pr : PendingRequest)
    (hnodup : (st.pendingRequests.map (fun r => r.id)).Nodup)
    (hfind : st.pendingRequests.find? (fun r => r.id == requestId) = some pr) :
    (∀ r ∈ (handleRespondRequest st requestId (some b) now).1.pendingRequests,
      r.id ≠ requestId) ∧
    (∃ ev, ((handleRespondRequest st requestId (some b) now).2 = RespondResult.ok ev ∨
            (handleRespondRequest st requestId (some b) now).2 = RespondResult.badRequest ev) ∧
      ev.settledId = requestId) := by
  have hprid : pr.id = requestId := by
    simpa using List.find?_some hfind
  constructor
  · intro r hr
    rw [respond_parsed_state st requestId b now pr hfind] at hr
    exact eraseP_id_not_mem st.pendingRequests requestId hnodup r hr
  · obtain ⟨ev, hev, hid⟩ := respond_parsed_event st requestId b now pr hfind
    exact ⟨ev, hev, by rw [hid, hprid]⟩

/-- Witness for the amended C5 at a one-entry state and a parsed body. -/
theorem respond_parsed_removes_entry_witness :
    ∃ ev, ((handleRespondRequest respondState "req_1_0"
              (some { error := none, data := none }) 0).2 = RespondResult.ok ev ∨
           (handleRespondRequest respondState "req_1_0"
              (some { error := none, data := none }) 0).2 = RespondResult.badRequest ev) ∧
      ev.settledId = "req_1_0" :=
  (respond_parsed_removes_entry respondState "req_1_0" { error := none, data := none } 0
    { id := "req_1_0", type := RequestType.listDataFrames, params := none, createdAt := 0 }
    (by decide) (by decide)).2

/-- Witness for the amended C2: the all-absent body is rejected. -/
theorem review_validation_characterization_witness :
    ∃ msg, reviewOutcome
      { name := none, data := none, nrow := 0, ncol := 0
      , colnames := [], coltypes := Coltypes.arr [], labels := [] } 0 =
      Except.error msg :=
  (review_validation_characterization
    { name := none, data := none, nrow := 0, ncol := 0
    , colnames := [], coltypes := Coltypes.arr [], labels := [] } 0).mpr (Or.inl rfl)
